import Mathlib

/-!
Shallow embedding of `src/app.py` (Coffee Shop Daily Revenue Predictor),
a single-page Streamlit app: six bounded sidebar sliders, a cached
`load_model`, one `model.predict` call on a one-row six-column frame,
and a try/except block that renders either a success display or an
error message.

Numeric values are modelled as rationals; the trained artifact (a
pickled model, external to the repository) is modelled as a function
value whose inference may fail with a message, and whose output cells
are `some v` (numeric) or `none` (a value Python's `float` rejects).
-/

namespace CoffeeShop

/-- Configuration of one `st.sidebar.slider` call in `src/app.py`:
label, bounds, default value, optional step, and help text. -/
structure Slider where
  label : String
  minValue : ℚ
  maxValue : ℚ
  defaultValue : ℚ
  step : Option ℚ
  help : String
  deriving DecidableEq

/-- Slider "Number of Customers Per Day" (app.py lines 39-45). -/
def customers_per_day_slider : Slider :=
  { label := "Number of Customers Per Day"
    minValue := 0, maxValue := 1000, defaultValue := 200, step := none
    help := "Average number of customers visiting the coffee shop per day." }

/-- Slider "Average Order Value ($)" (app.py lines 47-54). -/
def avg_order_value_slider : Slider :=
  { label := "Average Order Value ($)"
    minValue := 0, maxValue := 20, defaultValue := 5, step := some (1/10)
    help := "Average amount spent by each customer per visit." }

/-- Slider "Operating Hours Per Day" (app.py lines 56-62). -/
def operating_hours_slider : Slider :=
  { label := "Operating Hours Per Day"
    minValue := 0, maxValue := 24, defaultValue := 10, step := none
    help := "Number of hours the coffee shop is open each day." }

/-- Slider "Number of Employees" (app.py lines 64-70). -/
def num_employees_slider : Slider :=
  { label := "Number of Employees"
    minValue := 1, maxValue := 50, defaultValue := 5, step := none
    help := "Number of employees working at the coffee shop." }

/-- Slider "Marketing Spend Per Day ($)" (app.py lines 72-79). -/
def marketing_spend_slider : Slider :=
  { label := "Marketing Spend Per Day ($)"
    minValue := 0, maxValue := 1000, defaultValue := 100, step := some 1
    help := "Amount spent on marketing per day." }

/-- Slider "Location Foot Traffic" (app.py lines 81-87). -/
def foot_traffic_slider : Slider :=
  { label := "Location Foot Traffic"
    minValue := 0, maxValue := 2000, defaultValue := 500, step := none
    help := "Estimated foot traffic at the location per day." }

/-- Value reported by a Streamlit slider control: whatever position the
user requests, the control constrains the reported value to
`[minValue, maxValue]` (range enforcement by clamping the control; a
slider widget cannot take a value outside its bounds). -/
def Slider.value (s : Slider) (u : ℚ) : ℚ :=
  max s.minValue (min s.maxValue u)

/-- Raw positions the user requests for the six sidebar controls
(before the controls constrain them to their bounds). -/
structure RawInputs where
  customers_per_day : ℚ
  avg_order_value : ℚ
  operating_hours : ℚ
  num_employees : ℚ
  marketing_spend : ℚ
  foot_traffic : ℚ
  deriving DecidableEq

/-- FeatureRecord: the six current slider values, as read by the
predict-button branch of `app.py`. -/
structure FeatureRecord where
  customers_per_day : ℚ
  avg_order_value : ℚ
  operating_hours : ℚ
  num_employees : ℚ
  marketing_spend : ℚ
  foot_traffic : ℚ
  deriving DecidableEq

/-- Reading the six sidebar controls: each field is the corresponding
slider's reported (clamped) value. -/
def collectInputs (u : RawInputs) : FeatureRecord :=
  { customers_per_day := customers_per_day_slider.value u.customers_per_day
    avg_order_value := avg_order_value_slider.value u.avg_order_value
    operating_hours := operating_hours_slider.value u.operating_hours
    num_employees := num_employees_slider.value u.num_employees
    marketing_spend := marketing_spend_slider.value u.marketing_spend
    foot_traffic := foot_traffic_slider.value u.foot_traffic }

/-- Domain of §3 of the spec, as realised by the slider bounds in
`app.py`: each field within its `[min, max]` interval. -/
def FeatureRecord.valid (r : FeatureRecord) : Prop :=
  0 ≤ r.customers_per_day ∧ r.customers_per_day ≤ 1000 ∧
  0 ≤ r.avg_order_value ∧ r.avg_order_value ≤ 20 ∧
  0 ≤ r.operating_hours ∧ r.operating_hours ≤ 24 ∧
  1 ≤ r.num_employees ∧ r.num_employees ≤ 50 ∧
  0 ≤ r.marketing_spend ∧ r.marketing_spend ≤ 1000 ∧
  0 ≤ r.foot_traffic ∧ r.foot_traffic ≤ 2000

instance (r : FeatureRecord) : Decidable r.valid := by
  unfold FeatureRecord.valid; infer_instance

/-- The one-row `pd.DataFrame` built in the predict branch
(app.py lines 111-118): ordered named columns, each holding the
corresponding field. -/
def input_data (r : FeatureRecord) : List (String × ℚ) :=
  [("Number_of_Customers_Per_Day", r.customers_per_day),
   ("Average_Order_Value", r.avg_order_value),
   ("Operating_Hours_Per_Day", r.operating_hours),
   ("Number_of_Employees", r.num_employees),
   ("Marketing_Spend_Per_Day", r.marketing_spend),
   ("Location_Foot_Traffic", r.foot_traffic)]

/-- The ordered feature vector the model receives: the row of
`input_data` in column order. -/
def featureVector (r : FeatureRecord) : List ℚ :=
  (input_data r).map Prod.snd

/-- Modelled from the spec: the schema order the trained artifact
expects, which §3 fixes as the table's row order (the artifact itself
is outside this repository). -/
def specSchemaOrder : List String :=
  ["Number_of_Customers_Per_Day",
   "Average_Order_Value",
   "Operating_Hours_Per_Day",
   "Number_of_Employees",
   "Marketing_Spend_Per_Day",
   "Location_Foot_Traffic"]

/-- The deserialized model object: an external capability whose
inference either fails with a message (any underlying exception) or
returns a list of output cells; a cell is `some v` for a numeric value
and `none` for a value that `float(...)` cannot convert. -/
structure Model where
  mpredict : List ℚ → Except String (List (Option ℚ))

/-- A well-behaved artifact in the sense of §8 of the spec: on every
six-element feature vector, inference succeeds with a single
non-negative numeric output. -/
def WellBehaved (m : Model) : Prop :=
  ∀ fv : List ℚ, fv.length = 6 → ∃ v : ℚ, 0 ≤ v ∧ m.mpredict fv = .ok [some v]

/-- Errors the predict branch can catch: `FileNotFoundError` (its
message), or any other exception (its message), matching the two
`except` clauses of app.py lines 140-146. -/
inductive AppError where
  | fileNotFound (msg : String)
  | exc (msg : String)
  deriving DecidableEq

/-- MODEL_PATH from app.py line 21: `Path(__file__).parent / "model.pkl"`,
for the given directory of the running script. -/
def MODEL_PATH (appDir : String) : String :=
  appDir ++ "/model.pkl"

/-- Message of the `FileNotFoundError` raised by `load_model`
(app.py lines 27-30). -/
def artifactMissingMsg (appDir : String) : String :=
  "model.pkl not found at: " ++ MODEL_PATH appDir ++
    ". Please make sure the file is in the same folder as this app."

/-- Process environment seen by one run: the directory of the script,
whether `model.pkl` exists there, and what `pickle.load` yields when
the file is read (a model, or an exception message). -/
structure Env where
  appDir : String
  modelPklExists : Bool
  unpickled : Except String Model

/-- Body of `load_model` (app.py lines 24-33), without the cache: raise
`FileNotFoundError` when the path does not exist, otherwise unpickle. -/
def load_model_body (env : Env) : Except AppError Model :=
  if env.modelPklExists = false then
    .error (.fileNotFound (artifactMissingMsg env.appDir))
  else
    match env.unpickled with
    | .ok m => .ok m
    | .error msg => .error (.exc msg)

/-- Cached `load_model` under `@st.cache_resource` (app.py line 23):
given the process-wide cache, return the result, the new cache, and
whether deserialization actually ran. A cache hit returns the stored
handle without touching the disk; errors are not cached. -/
def load_model (env : Env) (cache : Option Model) :
    Except AppError Model × Option Model × Bool :=
  match cache with
  | some m => (.ok m, some m, false)
  | none =>
    match load_model_body env with
    | .ok m => (.ok m, some m, true)
    | .error e => (.error e, none, true)

/-- What one run of the predict branch renders: the result header, the
success revenue figure, the insights text, and the error box. -/
structure Display where
  resultHeader : Bool
  successRevenue : Option ℚ
  insightsShown : Bool
  errorShown : Option String
  deriving DecidableEq

/-- Success rendering (app.py lines 125-138): header, revenue figure,
insights, note; no error box. -/
def successDisplay (revenue : ℚ) : Display :=
  { resultHeader := true, successRevenue := some revenue
    insightsShown := true, errorShown := none }

/-- Error rendering: only `st.error` with the given message; none of
the success output. -/
def errorDisplay (msg : String) : Display :=
  { resultHeader := false, successRevenue := none
    insightsShown := false, errorShown := some msg }

/-- Message of the generic `except Exception` handler
(app.py lines 142-146), wrapping the underlying details. -/
def genericErrorMsg (details : String) : String :=
  "❌ An unexpected error occurred while loading the model or making a prediction.\n\nDetails: `" ++
    details ++ "`"

/-- Modelled stand-in for the Python `IndexError` message raised by
`prediction[0]` on an empty output. -/
def indexErrorMsg : String :=
  "index 0 is out of bounds for axis 0 with size 0"

/-- Modelled stand-in for the Python error message raised by
`float(...)` on a non-numeric output cell. -/
def floatConvErrorMsg : String :=
  "float() argument must be a number"

/-- One run of the predict-button branch (app.py lines 108-146): build
the frame, load the (cached) model, predict, extract `prediction[0]`
as a float, render success; any `FileNotFoundError` renders its own
message, any other exception renders the generic message. Returns the
rendered display and the cache after the run. -/
def predictAction (env : Env) (cache : Option Model) (r : FeatureRecord) :
    Display × Option Model :=
  match load_model env cache with
  | (.ok model, cache2, _) =>
    match model.mpredict (featureVector r) with
    | .ok prediction =>
      match prediction.head? with
      | some (some v) => (successDisplay v, cache2)
      | some none => (errorDisplay (genericErrorMsg floatConvErrorMsg), cache2)
      | none => (errorDisplay (genericErrorMsg indexErrorMsg), cache2)
    | .error msg => (errorDisplay (genericErrorMsg msg), cache2)
  | (.error (.fileNotFound msg), cache2, _) => (errorDisplay msg, cache2)
  | (.error (.exc msg), cache2, _) => (errorDisplay (genericErrorMsg msg), cache2)

/-- The full user action: read the six sidebar controls, then run the
predict branch on the collected FeatureRecord. -/
def appRun (env : Env) (cache : Option Model) (u : RawInputs) :
    Display × Option Model :=
  predictAction env cache (collectInputs u)

/-! Concrete instances used to evaluate the embedding on closed inputs. -/

/-- A deterministic, well-behaved artifact: every input predicts 42. -/
def constModel : Model := ⟨fun _ => .ok [some 42]⟩

/-- An artifact whose inference returns an empty output vector. -/
def emptyOutModel : Model := ⟨fun _ => .ok []⟩

/-- Environment where `model.pkl` exists and unpickles to `constModel`. -/
def goodEnv : Env := ⟨"/srv/app", true, .ok constModel⟩

/-- Environment where `model.pkl` is absent. -/
def missingEnv : Env := ⟨"/srv/app", false, .error "unused"⟩

/-- Environment where the file exists but `pickle.load` raises. -/
def badUnpickleEnv : Env := ⟨"/srv/app", true, .error "invalid load key"⟩

/-- Environment whose artifact yields an empty prediction vector. -/
def emptyOutEnv : Env := ⟨"/srv/app", true, .ok emptyOutModel⟩

/-- The documented default FeatureRecord {200, 5.0, 10, 5, 100.0, 500}. -/
def defaultRecord : FeatureRecord := ⟨200, 5, 10, 5, 100, 500⟩

/-- All fields at their minimum (num_employees has minimum 1). -/
def minRecord : FeatureRecord := ⟨0, 0, 0, 1, 0, 0⟩

/-- All fields at their maximum (1000, 20.0, 24, 50, 1000.0, 2000). -/
def maxRecord : FeatureRecord := ⟨1000, 20, 24, 50, 1000, 2000⟩

theorem constModel_wellBehaved : WellBehaved constModel :=
  fun _ _ => ⟨42, by norm_num, rfl⟩

/-! Helper lemmas shared by several claim proofs. -/

/-- Whenever the cached loader succeeds, the cache it leaves holds
exactly the returned handle. -/
theorem load_model_ok_cache (env : Env) (cache c2 : Option Model) (m : Model)
    (b : Bool) (hl : load_model env cache = (Except.ok m, c2, b)) :
    c2 = some m := by
  cases cache with
  | some m0 =>
    unfold load_model at hl
    injection hl with h1 h2
    injection h2 with h2 h3
    injection h1 with h1
    rw [← h2, h1]
  | none =>
    unfold load_model at hl
    cases hlb : load_model_body env with
    | ok m2 =>
      rw [hlb] at hl
      injection hl with h1 h2
      injection h2 with h2 h3
      injection h1 with h1
      rw [← h2, h1]
    | error e2 =>
      rw [hlb] at hl
      injection hl with h1 h2
      injection h1

/-- Every run renders either the full success display or a bare error
display. -/
theorem display_cases (env : Env) (cache : Option Model) (r : FeatureRecord) :
    (∃ v, (predictAction env cache r).1 = successDisplay v) ∨
    (∃ m2, (predictAction env cache r).1 = errorDisplay m2) := by
  rcases hl : load_model env cache with ⟨res, c2, b⟩
  cases res with
  | error e =>
    cases e with
    | fileNotFound m0 => exact Or.inr ⟨m0, by simp [predictAction, hl]⟩
    | exc m0 => exact Or.inr ⟨genericErrorMsg m0, by simp [predictAction, hl]⟩
  | ok m =>
    rcases hp : m.mpredict (featureVector r) with m0 | out
    · exact Or.inr ⟨genericErrorMsg m0, by simp [predictAction, hl, hp]⟩
    · rcases hh : out.head? with _ | ov
      · exact Or.inr ⟨genericErrorMsg indexErrorMsg, by simp [predictAction, hl, hp, hh]⟩
      · rcases ov with _ | v
        · exact Or.inr ⟨genericErrorMsg floatConvErrorMsg, by simp [predictAction, hl, hp, hh]⟩
        · exact Or.inl ⟨v, by simp [predictAction, hl, hp, hh]⟩

/-! Claim theorems. -/

/-- C1: if the model artifact path does not exist, the run fails on
`load_model` with the `FileNotFoundError`, the error is caught (the run
still renders a display), and the message shown to the user contains
the attempted path. -/
theorem artifact_missing_caught_and_surfaced (env : Env) (r : FeatureRecord)
    (hmissing : env.modelPklExists = false) :
    ∃ msg : String, (predictAction env none r).1 = errorDisplay msg ∧
      ∃ pre post : String, msg = pre ++ MODEL_PATH env.appDir ++ post := by
  have hb : load_model_body env =
      .error (.fileNotFound (artifactMissingMsg env.appDir)) := by
    unfold load_model_body
    rw [hmissing]
    simp
  have hl : load_model env none =
      (.error (.fileNotFound (artifactMissingMsg env.appDir)), none, true) := by
    unfold load_model
    rw [hb]
  exact ⟨artifactMissingMsg env.appDir, by simp [predictAction, hl],
    "model.pkl not found at: ",
    ". Please make sure the file is in the same folder as this app.", rfl⟩

/-- Witness for C1 on a concrete environment with the artifact absent. -/
theorem artifact_missing_caught_and_surfaced_witness :
    ∃ msg : String, (predictAction missingEnv none defaultRecord).1 = errorDisplay msg ∧
      ∃ pre post : String, msg = pre ++ MODEL_PATH missingEnv.appDir ++ post :=
  artifact_missing_caught_and_surfaced missingEnv defaultRecord rfl

/-- C2: the artifact is loaded at most once per process: whenever an
invocation of the cached loader succeeds with handle `m`, the next
invocation performs no deserialization (the flag is `false`) and
returns the identical cached handle `m` with the cache unchanged. -/
theorem load_model_loads_once (env : Env) (cache c1 : Option Model) (m : Model)
    (b : Bool) (h : load_model env cache = (Except.ok m, c1, b)) :
    load_model env c1 = (Except.ok m, c1, false) := by
  have hc := load_model_ok_cache env cache c1 m b h
  subst hc
  rfl

/-- Witness for C2 on a concrete environment whose first load succeeds. -/
theorem load_model_loads_once_witness :
    load_model goodEnv (some constModel) = (Except.ok constModel, some constModel, false) :=
  load_model_loads_once goodEnv none (some constModel) constModel true rfl

/-- C3: whatever positions the user requests, the collected
FeatureRecord has all six fields within their stated domains (ranges
enforced by the clamping controls), and the frame handed to the model
has exactly the six schema columns in the expected order. -/
theorem collected_record_valid_and_ordered (u : RawInputs) :
    (collectInputs u).valid ∧
      (input_data (collectInputs u)).map Prod.fst = specSchemaOrder ∧
      (input_data (collectInputs u)).length = 6 := by
  refine ⟨?_, rfl, rfl⟩
  unfold FeatureRecord.valid collectInputs
  refine ⟨?_, ?_, ?_, ?_, ?_, ?_, ?_, ?_, ?_, ?_, ?_, ?_⟩ <;>
    first
      | exact le_max_left _ _
      | exact max_le
          (by norm_num [customers_per_day_slider, avg_order_value_slider,
            operating_hours_slider, num_employees_slider,
            marketing_spend_slider, foot_traffic_slider])
          (min_le_left _ _)

/-- C8: the six sidebar controls have exactly the documented bounds and
defaults: 200, 5.0, 10, 5, 100.0, 500 within [0,1000], [0.0,20.0],
[0,24], [1,50], [0.0,1000.0], [0,2000]. -/
theorem sidebar_bounds_and_defaults :
    customers_per_day_slider.defaultValue = 200 ∧
    avg_order_value_slider.defaultValue = 5 ∧
    operating_hours_slider.defaultValue = 10 ∧
    num_employees_slider.defaultValue = 5 ∧
    marketing_spend_slider.defaultValue = 100 ∧
    foot_traffic_slider.defaultValue = 500 ∧
    customers_per_day_slider.minValue = 0 ∧ customers_per_day_slider.maxValue = 1000 ∧
    avg_order_value_slider.minValue = 0 ∧ avg_order_value_slider.maxValue = 20 ∧
    operating_hours_slider.minValue = 0 ∧ operating_hours_slider.maxValue = 24 ∧
    num_employees_slider.minValue = 1 ∧ num_employees_slider.maxValue = 50 ∧
    marketing_spend_slider.minValue = 0 ∧ marketing_spend_slider.maxValue = 1000 ∧
    foot_traffic_slider.minValue = 0 ∧ foot_traffic_slider.maxValue = 2000 :=
  ⟨rfl, rfl, rfl, rfl, rfl, rfl, rfl, rfl, rfl, rfl, rfl, rfl, rfl, rfl, rfl, rfl, rfl, rfl⟩

/-- C4: for every FeatureRecord within the §3 domains, a run against a
well-behaved artifact renders the full success display with a
non-negative revenue figure, not an error. -/
theorem predict_valid_record_nonneg (env : Env) (m : Model) (r : FeatureRecord)
    (hm : WellBehaved m) (_hr : r.valid) :
    ∃ v : ℚ, 0 ≤ v ∧ (predictAction env (some m) r).1 = successDisplay v := by
  obtain ⟨v, hv, hp⟩ := hm (featureVector r) rfl
  exact ⟨v, hv, by simp [predictAction, load_model, hp]⟩

/-- Witness for C4: the all-minimum and all-maximum records both
render a success display under a concrete well-behaved artifact. -/
theorem predict_valid_record_nonneg_witness :
    (∃ v : ℚ, 0 ≤ v ∧ (predictAction goodEnv (some constModel) minRecord).1 = successDisplay v) ∧
    (∃ v : ℚ, 0 ≤ v ∧ (predictAction goodEnv (some constModel) maxRecord).1 = successDisplay v) :=
  ⟨predict_valid_record_nonneg goodEnv constModel minRecord constModel_wellBehaved (by decide),
   predict_valid_record_nonneg goodEnv constModel maxRecord constModel_wellBehaved (by decide)⟩

/-- C5: the run hands the model the ordered six-element feature vector
and, when inference succeeds, renders the first output value as the
revenue. -/
theorem predict_returns_first_output (env : Env) (m : Model) (r : FeatureRecord)
    (out : List (Option ℚ)) (v : ℚ)
    (hp : m.mpredict (featureVector r) = .ok out)
    (hv : out.head? = some (some v)) :
    featureVector r = [r.customers_per_day, r.avg_order_value, r.operating_hours,
      r.num_employees, r.marketing_spend, r.foot_traffic] ∧
    (featureVector r).length = 6 ∧
    (predictAction env (some m) r).1 = successDisplay v := by
  exact ⟨rfl, rfl, by simp [predictAction, load_model, hp, hv]⟩

/-- Witness for C5 on a concrete model whose output row is `[42]`. -/
theorem predict_returns_first_output_witness :
    featureVector defaultRecord = [defaultRecord.customers_per_day,
      defaultRecord.avg_order_value, defaultRecord.operating_hours,
      defaultRecord.num_employees, defaultRecord.marketing_spend,
      defaultRecord.foot_traffic] ∧
    (featureVector defaultRecord).length = 6 ∧
    (predictAction goodEnv (some constModel) defaultRecord).1 = successDisplay 42 :=
  predict_returns_first_output goodEnv constModel defaultRecord [some 42] 42 rfl rfl

/-- An underlying failure other than the missing-artifact case: either
unpickling raises on a fresh load, or the loaded model's inference
raises. -/
def underlyingFailure (env : Env) (cache : Option Model) (r : FeatureRecord)
    (msg : String) : Prop :=
  (cache = none ∧ env.modelPklExists = true ∧ env.unpickled = Except.error msg) ∨
  (∃ m b, load_model env cache = (Except.ok m, some m, b) ∧
    m.mpredict (featureVector r) = Except.error msg)

/-- C6: any failure other than the missing artifact is caught by the
generic handler: the run renders the generic message wrapping the
underlying details, and the next run with the resulting cache again
completes with a rendered display (the form stays usable; nothing is
retried automatically or escalates). -/
theorem catch_all_surfaces_underlying_message (env : Env) (cache : Option Model)
    (r : FeatureRecord) (msg : String)
    (h : underlyingFailure env cache r msg) :
    (predictAction env cache r).1 = errorDisplay (genericErrorMsg msg) ∧
    (∃ pre post : String, genericErrorMsg msg = pre ++ msg ++ post) ∧
    (predictAction env (predictAction env cache r).2 r).1 =
      errorDisplay (genericErrorMsg msg) := by
  have hcontains : ∃ pre post : String, genericErrorMsg msg = pre ++ msg ++ post :=
    ⟨"❌ An unexpected error occurred while loading the model or making a prediction.\n\nDetails: `",
     "`", rfl⟩
  rcases h with ⟨hc, he, hu⟩ | ⟨m, b, hl, hp⟩
  · subst hc
    have hl : load_model env none = (.error (.exc msg), none, true) := by
      unfold load_model load_model_body
      rw [he, hu]
      simp
    exact ⟨by simp [predictAction, hl], hcontains, by simp [predictAction, hl]⟩
  · refine ⟨by simp [predictAction, hl, hp], hcontains, ?_⟩
    have h2 : (predictAction env cache r).2 = some m := by
      simp [predictAction, hl, hp]
    rw [h2]
    simp [predictAction, load_model, hp]

/-- Witness for C6 on a concrete environment whose unpickling raises. -/
theorem catch_all_surfaces_underlying_message_witness :
    (predictAction badUnpickleEnv none defaultRecord).1 =
      errorDisplay (genericErrorMsg "invalid load key") ∧
    (∃ pre post : String,
      genericErrorMsg "invalid load key" = pre ++ "invalid load key" ++ post) ∧
    (predictAction badUnpickleEnv (predictAction badUnpickleEnv none defaultRecord).2
        defaultRecord).1 = errorDisplay (genericErrorMsg "invalid load key") :=
  catch_all_surfaces_underlying_message badUnpickleEnv none defaultRecord
    "invalid load key" (Or.inl ⟨rfl, rfl, rfl⟩)

/-- C7: prediction is deterministic: if a first run (starting from the
empty cache) renders revenue `R`, re-running the identical input with
the cache the first run left behind renders exactly `R` again. -/
theorem predict_deterministic (env : Env) (r : FeatureRecord) (R : ℚ)
    (hR : (predictAction env none r).1.successRevenue = some R) :
    (predictAction env (predictAction env none r).2 r).1.successRevenue = some R := by
  rcases hl : load_model env none with ⟨res, c2, b⟩
  cases res with
  | error e =>
    cases e with
    | fileNotFound m0 => simp [predictAction, hl, errorDisplay] at hR
    | exc m0 => simp [predictAction, hl, errorDisplay] at hR
  | ok m =>
    have hc2 : c2 = some m := load_model_ok_cache env none c2 m b hl
    subst hc2
    rcases hp : m.mpredict (featureVector r) with m0 | out
    · simp [predictAction, hl, hp, errorDisplay] at hR
    · rcases hh : out.head? with _ | ov
      · simp [predictAction, hl, hp, hh, errorDisplay] at hR
      · rcases ov with _ | v
        · simp [predictAction, hl, hp, hh, errorDisplay] at hR
        · have hR2 : v = R := by
            simpa [predictAction, hl, hp, hh, successDisplay] using hR
          have h2 : (predictAction env none r).2 = some m := by
            simp [predictAction, hl, hp, hh]
          rw [h2]
          simp [predictAction, load_model, hp, hh, successDisplay, hR2]

/-- Witness for C7 at the documented default record under a concrete
deterministic artifact. -/
theorem predict_deterministic_witness :
    (predictAction goodEnv (predictAction goodEnv none defaultRecord).2
        defaultRecord).1.successRevenue = some 42 :=
  predict_deterministic goodEnv defaultRecord 42 rfl

/-- C9: error atomicity: whenever a run renders an error message, it
renders none of the success output — no result header, no revenue
figure, no insights text. -/
theorem error_run_renders_no_partial_result (env : Env) (cache : Option Model)
    (r : FeatureRecord) (msg : String)
    (h : (predictAction env cache r).1.errorShown = some msg) :
    (predictAction env cache r).1.resultHeader = false ∧
    (predictAction env cache r).1.successRevenue = none ∧
    (predictAction env cache r).1.insightsShown = false := by
  rcases display_cases env cache r with ⟨v, hv⟩ | ⟨m2, hm2⟩
  · rw [hv] at h
    simp [successDisplay] at h
  · rw [hm2]
    exact ⟨rfl, rfl, rfl⟩

/-- Witness for C9 on a concrete run with the artifact absent. -/
theorem error_run_renders_no_partial_result_witness :
    (predictAction missingEnv none defaultRecord).1.resultHeader = false ∧
    (predictAction missingEnv none defaultRecord).1.successRevenue = none ∧
    (predictAction missingEnv none defaultRecord).1.insightsShown = false :=
  error_run_renders_no_partial_result missingEnv none defaultRecord
    (artifactMissingMsg "/srv/app") rfl

/-- C10: extracting `prediction[0]` and converting it to float are
inside the guarded region: a model output that is empty or whose first
cell is non-numeric yields the generic handled error display, not an
uncaught exception. -/
theorem extraction_failures_are_guarded (env : Env) (m : Model) (c2 : Option Model)
    (b : Bool) (r : FeatureRecord)
    (hl : load_model env none = (Except.ok m, c2, b))
    (h : m.mpredict (featureVector r) = .ok [] ∨
      ∃ rest, m.mpredict (featureVector r) = .ok (none :: rest)) :
    ∃ details,
      (predictAction env none r).1 = errorDisplay (genericErrorMsg details) := by
  rcases h with hp | ⟨rest, hp⟩
  · exact ⟨indexErrorMsg, by simp [predictAction, hl, hp]⟩
  · exact ⟨floatConvErrorMsg, by simp [predictAction, hl, hp]⟩

/-- Witness for C10 on a concrete artifact returning an empty output. -/
theorem extraction_failures_are_guarded_witness :
    ∃ details,
      (predictAction emptyOutEnv none defaultRecord).1 =
        errorDisplay (genericErrorMsg details) :=
  extraction_failures_are_guarded emptyOutEnv emptyOutModel (some emptyOutModel)
    true defaultRecord rfl (Or.inl rfl)

end CoffeeShop
